import Mathlib

/-!
Verification development for the SI201-Foodies ETL pipeline.

The Python source (calcs_and_sql.py, visualizations.py, main.py) is shallowly
embedded below.  SQL REAL values and Python floats are modelled as exact
rationals (ℚ); nullable columns and optional dictionary entries are modelled
as `Option`; Python exceptions that escape a function are modelled with
`Except String`, while exceptions that the source catches inside a loop are
modelled by the branch the handler takes (skip / continue).  SQLite semantics
relevant here: `INSERT OR IGNORE` ignores a row only when a uniqueness
constraint is violated; comparing against NULL with `=` never matches.
-/

namespace Foodies

/-- Row of the `products` table created by `create_kroger_tables`
(calcs_and_sql.py lines 51-57).  Note the schema declares `upc TEXT` with no
UNIQUE constraint; `id` is the AUTOINCREMENT primary key. -/
structure ProductRow where
  id : Nat
  upc : Option String
  description : Option String
  brand : Option String
deriving Repr, DecidableEq

/-- Row of the `items` table (calcs_and_sql.py lines 61-71).  No uniqueness
constraint beyond the primary key. -/
structure ItemRow where
  id : Nat
  product_id : Nat
  location_id : Option String
  regular_price : Option ℚ
  promo_price : Option ℚ
  stock_level : Option String
  size : Option String
deriving Repr, DecidableEq

/-- State of the grocery side of the SQLite database: the `products` and
`items` tables plus the next AUTOINCREMENT ids (SQLite rowids start at 1). -/
structure KrogerDB where
  products : List ProductRow
  items : List ItemRow
  nextProductId : Nat
  nextItemId : Nat
deriving Repr, DecidableEq

/-- The freshly created database, right after `create_kroger_tables`. -/
def emptyKrogerDB : KrogerDB := ⟨[], [], 1, 1⟩

/-- A cleaned grocery record: the dictionary built by
`clean_and_transf_kroger` (calcs_and_sql.py lines 277-286). -/
structure CleanedProduct where
  upc : Option String
  description : Option String
  brand : Option String
  regular_price : Option ℚ
  promo_price : Option ℚ
  stock_level : Option String
  size : Option String
deriving Repr, DecidableEq

/-- Module-level constant `db_insert_limit = 25` (calcs_and_sql.py line 8). -/
def db_insert_limit : Nat := 25

/-- Models `SELECT id FROM products WHERE upc = ?` followed by `fetchone()`
(calcs_and_sql.py line 312): the first row whose `upc` column equals the
parameter under SQL `=` semantics, where a NULL on either side never
matches. -/
def lookupProductId (products : List ProductRow) (u : Option String) : Option Nat :=
  (products.find? (fun r =>
    match u, r.upc with
    | some a, some b => a == b
    | _, _ => false)).map (fun r => r.id)

/-- One iteration of the `for product in products` loop body of
`into_krogerdb` (calcs_and_sql.py lines 299-342), after the cap check.
Returns the new database state and whether `inserted += 1` was reached.
The `try`/`except` of the source catches every raise, so each failure path
returns with `false` instead of propagating.  The `INSERT OR IGNORE INTO
products` always inserts because the schema puts no uniqueness constraint on
`products`; the subsequent id lookup uses `lookupProductId`, and its `None`
result raises a ValueError that the handler turns into a skip — with the new
products row already in place. -/
def processKrogerRecord (db : KrogerDB) (location_id : String)
    (product : CleanedProduct) : KrogerDB × Bool :=
  if product.regular_price = none then
    -- raise ValueError "Missing Price", caught by the except
    (db, false)
  else
    let newProd : ProductRow :=
      ⟨db.nextProductId, product.upc, product.description, product.brand⟩
    let db1 : KrogerDB :=
      { db with products := db.products ++ [newProd],
                nextProductId := db.nextProductId + 1 }
    match lookupProductId db1.products product.upc with
    | none =>
      -- raise ValueError "Could not retrieve ID", caught by the except;
      -- the products row inserted above remains
      (db1, false)
    | some product_id =>
      let newItem : ItemRow :=
        ⟨db1.nextItemId, product_id, some location_id, product.regular_price,
         product.promo_price, product.stock_level, product.size⟩
      ({ db1 with items := db1.items ++ [newItem],
                  nextItemId := db1.nextItemId + 1 }, true)

/-- The record loop of `into_krogerdb` (calcs_and_sql.py lines 295-342):
`if inserted >= db_insert_limit: break` is checked before each record. -/
def into_krogerdb_loop (location_id : String) :
    List CleanedProduct → KrogerDB → Nat → KrogerDB × Nat
  | [], db, inserted => (db, inserted)
  | product :: rest, db, inserted =>
    if db_insert_limit ≤ inserted then (db, inserted)
    else
      let r := processKrogerRecord db location_id product
      into_krogerdb_loop location_id rest r.1
        (if r.2 then inserted + 1 else inserted)

/-- Function `into_krogerdb` (calcs_and_sql.py lines 290-346): runs the
record loop starting from `inserted = 0` and returns the final database
state together with the returned `inserted` count. -/
def into_krogerdb (products : List CleanedProduct) (location_id : String)
    (db : KrogerDB) : KrogerDB × Nat :=
  into_krogerdb_loop location_id products db 0

/-- A record with a duplicated UPC, used to exercise `into_krogerdb`
(fields as produced by the cleaner for a priced product). -/
def dupUpcRecord : CleanedProduct :=
  ⟨some "0001111041700", some "Kroger Granulated Sugar", some "Kroger",
   some (299/100), none, some "HIGH", some "4 lb"⟩

/-- C1: the claim says ingesting a record whose UPC is already present
inserts no new products row, so the same UPC twice yields exactly one
products row.  The code violates this: the `products` schema has no UNIQUE
constraint on `upc`, so `INSERT OR IGNORE` never ignores, and ingesting the
same record twice (here into a fresh database) leaves two products rows
carrying the same UPC, with the call reporting 2 insertions. -/
theorem C1_duplicate_upc_products :
    (into_krogerdb [dupUpcRecord, dupUpcRecord] "01400943" emptyKrogerDB).2 = 2 ∧
    ((into_krogerdb [dupUpcRecord, dupUpcRecord] "01400943" emptyKrogerDB).1.products.map
      (fun p => p.upc)) = [some "0001111041700", some "0001111041700"] := by
  constructor <;> rfl

/-- C10: ingesting a record with a NULL upc but a present price inserts the
products row, then the id lookup (`WHERE upc = ?` with a NULL parameter)
matches nothing, the record is skipped and not counted, the items table is
untouched — yet the orphan products row (with NULL upc) remains, for any
starting database state. -/
theorem C10_null_upc_orphan_row (db : KrogerDB) (loc : String)
    (desc brand stock size : Option String) (pp : Option ℚ) (price : ℚ) :
    into_krogerdb [⟨none, desc, brand, some price, pp, stock, size⟩] loc db =
      ({ db with products := db.products ++ [⟨db.nextProductId, none, desc, brand⟩],
                 nextProductId := db.nextProductId + 1 }, 0) := by
  have hfind : ∀ l : List ProductRow,
      l.find? (fun r =>
        match (none : Option String), r.upc with
        | some a, some b => a == b
        | _, _ => false) = none := by
    intro l
    apply List.find?_eq_none.mpr
    intro x _
    simp
  simp only [into_krogerdb, into_krogerdb_loop, processKrogerRecord,
    lookupProductId, hfind, Option.map_none']
  norm_num [db_insert_limit, into_krogerdb_loop]
  simp

/-- Row of the `meals` table created by `create_spoonacular_table`
(calcs_and_sql.py lines 108-121).  `meal_id` is declared `INTEGER UNIQUE`. -/
structure MealRow where
  id : Nat
  meal_id : Option Int
  meal_name : Option String
  serving_size : Option String
  calories : Option ℚ
  protein_g : Option ℚ
  fat_g : Option ℚ
  carbs_g : Option ℚ
  cuisine_type : Option String
  health_score : Option ℚ
  diet_labels : Option String
  ingredients_list : Option String
  meal_url : Option String
deriving Repr, DecidableEq

/-- State of the `meals` table plus its next AUTOINCREMENT id. -/
structure MealsDB where
  meals : List MealRow
  nextId : Nat
deriving Repr, DecidableEq

/-- The freshly created meals table. -/
def emptyMealsDB : MealsDB := ⟨[], 1⟩

/-- A cleaned meal record: the dictionary built by
`clean_and_transform_meal_data` (calcs_and_sql.py lines 529-542).
`serving_size`, `cuisine_type`, `diet_labels`, `ingredients_list` and
`meal_url` are always strings there; the numeric fields and ids may be
None. -/
structure CleanedMeal where
  meal_id : Option Int
  meal_name : Option String
  serving_size : String
  calories : Option ℚ
  protein_g : Option ℚ
  fat_g : Option ℚ
  carbs_g : Option ℚ
  cuisine_type : String
  health_score : Option ℚ
  diet_labels : String
  ingredients_list : String
  meal_url : String
deriving Repr, DecidableEq

/-- Whether inserting `m` into the `meals` table would violate the UNIQUE
constraint on `meal_id`.  Under SQLite semantics a NULL `meal_id` never
conflicts with anything. -/
def mealIdTaken (db : MealsDB) (m : Option Int) : Bool :=
  match m with
  | none => false
  | some v => db.meals.any (fun r => r.meal_id == some v)

/-- The row written by the `INSERT OR IGNORE INTO meals` statement of
`into_spoonacular_db` (calcs_and_sql.py lines 563-583). -/
def rowOfMeal (id : Nat) (m : CleanedMeal) : MealRow :=
  ⟨id, m.meal_id, m.meal_name, some m.serving_size, m.calories, m.protein_g,
   m.fat_g, m.carbs_g, some m.cuisine_type, m.health_score,
   some m.diet_labels, some m.ingredients_list, some m.meal_url⟩

/-- The `for meal in meals` loop of `into_spoonacular_db` (calcs_and_sql.py
lines 556-589).  There is no insertion-cap check in this loop.  Records with
a None `calories` or `protein_g` are skipped without counting; otherwise the
`INSERT OR IGNORE` either appends a row or is silently ignored when the
UNIQUE `meal_id` is already taken — and `inserted += 1` runs in both cases,
since the ignored statement raises nothing. -/
def into_spoonacular_loop : List CleanedMeal → MealsDB → Nat → MealsDB × Nat
  | [], db, inserted => (db, inserted)
  | meal :: rest, db, inserted =>
    if meal.calories = none ∨ meal.protein_g = none then
      into_spoonacular_loop rest db inserted
    else
      let db2 : MealsDB :=
        if mealIdTaken db meal.meal_id then db
        else ⟨db.meals ++ [rowOfMeal db.nextId meal], db.nextId + 1⟩
      into_spoonacular_loop rest db2 (inserted + 1)

/-- Function `into_spoonacular_db` (calcs_and_sql.py lines 550-593). -/
def into_spoonacular_db (meals : List CleanedMeal) (db : MealsDB) : MealsDB × Nat :=
  into_spoonacular_loop meals db 0

/-- Items-table effect of one grocery record: one row is appended exactly
when the record counts toward `inserted`. -/
lemma processKrogerRecord_items (db : KrogerDB) (loc : String)
    (p : CleanedProduct) :
    (processKrogerRecord db loc p).1.items.length =
      db.items.length + (if (processKrogerRecord db loc p).2 then 1 else 0) := by
  unfold processKrogerRecord
  by_cases h : p.regular_price = none
  · simp [h]
  · simp only [h, if_neg, ite_false]
    cases hl : lookupProductId
        (db.products ++ [⟨db.nextProductId, p.upc, p.description, p.brand⟩]) p.upc with
    | none => simp
    | some pid => simp

/-- Invariant of the `into_krogerdb` record loop: the count never exceeds
the cap, it only grows, and the items table grows by exactly the count
difference. -/
lemma into_krogerdb_loop_spec (loc : String) :
    ∀ (l : List CleanedProduct) (db : KrogerDB) (ins : Nat),
      ins ≤ db_insert_limit →
      ins ≤ (into_krogerdb_loop loc l db ins).2 ∧
      (into_krogerdb_loop loc l db ins).2 ≤ db_insert_limit ∧
      (into_krogerdb_loop loc l db ins).1.items.length + ins =
        db.items.length + (into_krogerdb_loop loc l db ins).2 := by
  intro l
  induction l with
  | nil => intro db ins h; simpa [into_krogerdb_loop] using h
  | cons p rest ih =>
    intro db ins h
    by_cases hcap : db_insert_limit ≤ ins
    · simp [into_krogerdb_loop, hcap, h]
    · have hlt : ins < db_insert_limit := Nat.lt_of_not_le hcap
      simp only [into_krogerdb_loop, hcap, ite_false]
      cases hok : (processKrogerRecord db loc p).2 with
      | true =>
        have hrec := ih (processKrogerRecord db loc p).1 (ins + 1) hlt
        have hitems := processKrogerRecord_items db loc p
        rw [hok] at hitems
        norm_num at hitems
        simp only [hok, ite_true] at hrec ⊢
        refine ⟨le_trans (Nat.le_succ ins) hrec.1, hrec.2.1, ?_⟩
        omega
      | false =>
        have hrec := ih (processKrogerRecord db loc p).1 ins (le_of_lt hlt)
        have hitems := processKrogerRecord_items db loc p
        rw [hok] at hitems
        norm_num at hitems
        rw [show (if false = true then ins + 1 else ins) = ins from rfl]
        refine ⟨hrec.1, hrec.2.1, ?_⟩
        omega

/-- The spoonacular insert loop counts exactly the records whose `calories`
and `protein_g` are both present, regardless of any cap and regardless of
whether the insert was ignored as a duplicate. -/
lemma into_spoonacular_loop_count :
    ∀ (l : List CleanedMeal) (db : MealsDB) (ins : Nat),
      (into_spoonacular_loop l db ins).2 =
        ins + l.countP (fun m => m.calories.isSome && m.protein_g.isSome) := by
  intro l
  induction l with
  | nil => intro db ins; simp [into_spoonacular_loop]
  | cons m rest ih =>
    intro db ins
    by_cases h : m.calories = none ∨ m.protein_g = none
    · have hc : ¬ (m.calories.isSome && m.protein_g.isSome) = true := by
        rcases h with h | h <;> simp [h]
      rw [List.countP_cons_of_neg (fun m : CleanedMeal => m.calories.isSome && m.protein_g.isSome) _ hc]
      simp only [into_spoonacular_loop, h, ite_true, ih]
    · have hc : (m.calories.isSome && m.protein_g.isSome) = true := by
        push_neg at h
        simp [Option.isSome_iff_ne_none, h.1, h.2]
      rw [List.countP_cons_of_pos (fun m : CleanedMeal => m.calories.isSome && m.protein_g.isSome) _ hc]
      simp only [into_spoonacular_loop, h, ite_false, ih]
      omega

/-- A valid meal record with a given `meal_id`, used to exercise the
spoonacular ingestion. -/
def mealWithId (i : Int) : CleanedMeal :=
  ⟨some i, some "Pasta", "4 serving(s)", some 100, some 5, some 3, some 10,
   "Italian", some 40, "None", "pasta, salt", "http://example.com"⟩

/-- C3 counterexample: the claim fails for the meal ingestion call.  Feeding
it the same valid meal twice returns 2 although only one row was actually
inserted (the second `INSERT OR IGNORE` was ignored on the UNIQUE
`meal_id`), so the return value is not the number of rows inserted; and
feeding it 26 distinct valid meals inserts 26 rows — more than the
db_insert_limit cap of 25 — because the loop checks no cap at all. -/
theorem C3_cap_counterexample :
    ((into_spoonacular_db [mealWithId 7, mealWithId 7] emptyMealsDB).2 = 2 ∧
      (into_spoonacular_db [mealWithId 7, mealWithId 7] emptyMealsDB).1.meals.length = 1) ∧
    ((into_spoonacular_db ((List.range 26).map (fun i => mealWithId i)) emptyMealsDB).2 = 26 ∧
      25 < (into_spoonacular_db ((List.range 26).map (fun i => mealWithId i)) emptyMealsDB).1.meals.length) := by
  refine ⟨⟨by rfl, by rfl⟩, ⟨by rfl, by decide⟩⟩

/-- C3 amended: only the grocery ingestion `into_krogerdb` enforces the cap:
its count never exceeds `db_insert_limit`, the items table grows by exactly
the returned count, and the loop stops immediately (state unchanged) once
the count has reached the cap.  The meal ingestion `into_spoonacular_db`
has no per-call cap and returns the number of records with non-null
calories and protein it attempted, counting attempts whose insert the store
ignored as duplicates. -/
theorem C3_cap_amended :
    (∀ (ps : List CleanedProduct) (loc : String) (db : KrogerDB),
      (into_krogerdb ps loc db).2 ≤ db_insert_limit) ∧
    (∀ (ps : List CleanedProduct) (loc : String) (db : KrogerDB),
      (into_krogerdb ps loc db).1.items.length =
        db.items.length + (into_krogerdb ps loc db).2) ∧
    (∀ (ps : List CleanedProduct) (loc : String) (db : KrogerDB) (ins : Nat),
      db_insert_limit ≤ ins → into_krogerdb_loop loc ps db ins = (db, ins)) ∧
    (∀ (ms : List CleanedMeal) (db : MealsDB),
      (into_spoonacular_db ms db).2 =
        ms.countP (fun m => m.calories.isSome && m.protein_g.isSome)) := by
  refine ⟨?_, ?_, ?_, ?_⟩
  · intro ps loc db
    exact (into_krogerdb_loop_spec loc ps db 0 (Nat.zero_le _)).2.1
  · intro ps loc db
    have h := (into_krogerdb_loop_spec loc ps db 0 (Nat.zero_le _)).2.2
    simp only [into_krogerdb]
    omega
  · intro ps loc db ins h
    cases ps with
    | nil => simp [into_krogerdb_loop]
    | cons p rest => simp [into_krogerdb_loop, h]
  · intro ms db
    simpa [into_spoonacular_db] using into_spoonacular_loop_count ms db 0

/-- C3 amended, witnessed at concrete inputs: the stop-at-cap clause applied
with the cap already reached on a nonempty list, and the grocery cap bound
at a concrete call. -/
theorem C3_cap_amended_witness :
    into_krogerdb_loop "01400943" [dupUpcRecord] emptyKrogerDB 25 = (emptyKrogerDB, 25) ∧
    (into_krogerdb [dupUpcRecord] "01400943" emptyKrogerDB).2 ≤ db_insert_limit := by
  exact ⟨C3_cap_amended.2.2.1 [dupUpcRecord] "01400943" emptyKrogerDB 25 (by decide),
    C3_cap_amended.1 [dupUpcRecord] "01400943" emptyKrogerDB⟩

/-- Python `d.get(k)` on a dictionary with nullable values, modelled as an
association list: returns the value when the key is present and its value is
not None, and `none` otherwise. -/
def dictGet {α : Type} (d : List (String × Option α)) (k : String) : Option α :=
  (d.lookup k).join

/-- Python truthiness of an optional dictionary: `None` and the empty dict
are falsy, a non-empty dict is truthy. -/
def dictTruthy {α : Type} (d : Option (List (String × Option α))) : Bool :=
  match d with
  | some (_ :: _) => true
  | _ => false

/-- The location-specific entry of a raw Kroger product (an element of the
product's `items` array), keeping the keys `clean_and_transf_kroger` reads.
Dictionary-valued keys are `none` when absent or None. -/
structure RawItem where
  price : Option (List (String × Option ℚ))
  nationalPrice : Option (List (String × Option ℚ))
  inventory : Option (List (String × Option String))
  size : Option String
deriving Repr, DecidableEq

/-- The default `{}` entry used by `product.get("items", [{}])`. -/
def emptyRawItem : RawItem := ⟨none, none, none, none⟩

/-- A raw Kroger product as consumed by `clean_and_transf_kroger`.  `items`
is `none` when the key is absent and `some l` when present with list `l`. -/
structure RawProduct where
  upc : Option String
  description : Option String
  brand : Option String
  items : Option (List RawItem)
deriving Repr, DecidableEq

/-- The price-source selection of `clean_and_transf_kroger`
(calcs_and_sql.py line 274): `item.get("price") or item.get("nationalPrice")
or {}`.  Python `or` picks the first truthy operand, so a present but empty
`price` dict falls through to `nationalPrice`. -/
def price_obj_of (item : RawItem) : List (String × Option ℚ) :=
  if dictTruthy item.price then item.price.getD []
  else if dictTruthy item.nationalPrice then item.nationalPrice.getD []
  else []

/-- One iteration of the loop body of `clean_and_transf_kroger`
(calcs_and_sql.py lines 268-286).  `product.get("items", [{}])[0]` indexes
the default `[{}]` when the key is absent, but raises an IndexError when the
key is present with an empty list; that exception is not caught anywhere in
the function. -/
def clean_one (product : RawProduct) : Except String CleanedProduct :=
  match product.items.getD [emptyRawItem] with
  | [] => .error "IndexError: list index out of range"
  | item :: _ =>
    let price_obj := price_obj_of item
    .ok
      { upc := product.upc
        description := product.description
        brand := product.brand
        regular_price := dictGet price_obj "regular"
        promo_price := dictGet price_obj "promo"
        stock_level :=
          dictGet (if dictTruthy item.inventory then item.inventory.getD [] else [])
            "stockLevel"
        size := item.size }

/-- Function `clean_and_transf_kroger` (calcs_and_sql.py lines 253-288):
appends one cleaned dictionary per raw product; an uncaught exception in the
loop body aborts the whole call. -/
def clean_and_transf_kroger : List RawProduct → Except String (List CleanedProduct)
  | [] => .ok []
  | product :: rest =>
    match clean_one product with
    | .error e => .error e
    | .ok row =>
      match clean_and_transf_kroger rest with
      | .error e => .error e
      | .ok rows => .ok (row :: rows)

/-- C4 counterexample: the claim says an absent *or empty* nested item list
degrades to null fields without raising.  A raw product whose `items` key is
present with an empty list makes the cleaner raise an IndexError, aborting
the whole batch (including the well-formed record after it). -/
theorem C4_empty_items_raises :
    clean_and_transf_kroger
      [⟨some "0001111041700", some "Sugar", some "Kroger", some []⟩,
       ⟨some "0001111041701", some "Milk", some "Kroger", none⟩] =
    .error "IndexError: list index out of range" := by
  rfl

/-- C4 amended: the cleaner never raises as long as no record carries a
present-but-EMPTY `items` list: a record whose `items` key is absent
degrades to a cleaned row whose price, promo, stock and size fields are all
null, and any record whose `items` list is non-empty also cleans
successfully.  Only the present-and-empty list raises. -/
theorem C4_cleaner_amended :
    (∀ p : RawProduct, p.items = none →
      clean_one p = .ok ⟨p.upc, p.description, p.brand, none, none, none, none⟩) ∧
    (∀ (p : RawProduct) (it : RawItem) (rest : List RawItem),
      p.items = some (it :: rest) → ∃ row, clean_one p = .ok row) := by
  constructor
  · intro p hp
    simp [clean_one, hp, emptyRawItem, price_obj_of, dictTruthy, dictGet]
  · intro p it rest hp
    exact ⟨⟨p.upc, p.description, p.brand, dictGet (price_obj_of it) "regular",
      dictGet (price_obj_of it) "promo",
      dictGet (if dictTruthy it.inventory then it.inventory.getD [] else []) "stockLevel",
      it.size⟩, by simp [clean_one, hp]⟩

/-- C4 amended, witnessed: a record with no `items` key cleans to an
all-null-fields row, and a record with a one-element `items` list cleans
successfully. -/
theorem C4_cleaner_amended_witness :
    clean_one ⟨some "0001111041700", some "Sugar", some "Kroger", none⟩ =
      .ok ⟨some "0001111041700", some "Sugar", some "Kroger", none, none, none, none⟩ ∧
    ∃ row, clean_one ⟨some "0001111041700", some "Sugar", some "Kroger",
      some [emptyRawItem]⟩ = .ok row := by
  exact ⟨C4_cleaner_amended.1 ⟨some "0001111041700", some "Sugar", some "Kroger", none⟩ rfl,
    C4_cleaner_amended.2 ⟨some "0001111041700", some "Sugar", some "Kroger",
      some [emptyRawItem]⟩ emptyRawItem [] rfl⟩

/-- A raw item whose `price` key is present but maps to an empty dict, while
`nationalPrice` carries the regular price. -/
def emptyPriceItem : RawItem :=
  ⟨some [], some [("regular", some 5)], none, some "16 oz"⟩

/-- C7 counterexample: the claim says the price fields are read from the
item's `price` object whenever it is PRESENT, and from `nationalPrice` only
when `price` is absent.  With `price` present but empty (so the claim would
give null prices), the code's `or`-chain falls through to `nationalPrice`
and the cleaned row gets regular_price 5 from there. -/
theorem C7_present_empty_price_falls_through :
    emptyPriceItem.price = some [] ∧
    dictGet ([] : List (String × Option ℚ)) "regular" = none ∧
    clean_one ⟨some "123", none, none, some [emptyPriceItem]⟩ =
      .ok ⟨some "123", none, none, some 5, none, none, some "16 oz"⟩ := by
  exact ⟨rfl, rfl, rfl⟩

/-- C7 amended: the price fields are read from the item's `price` object
whenever it is present AND non-empty; when `price` is absent, None, or an
empty dict, they are read from the `nationalPrice` object if that one is
present and non-empty; when neither is a non-empty dict, both price fields
of the cleaned row are null. -/
theorem C7_price_fallback_amended (p : RawProduct) (it : RawItem)
    (rest : List RawItem) (hp : p.items = some (it :: rest)) :
    (∀ d, it.price = some d → d ≠ [] →
      clean_one p = .ok ⟨p.upc, p.description, p.brand,
        dictGet d "regular", dictGet d "promo",
        dictGet (if dictTruthy it.inventory then it.inventory.getD [] else []) "stockLevel",
        it.size⟩) ∧
    (dictTruthy it.price = false → ∀ d, it.nationalPrice = some d → d ≠ [] →
      clean_one p = .ok ⟨p.upc, p.description, p.brand,
        dictGet d "regular", dictGet d "promo",
        dictGet (if dictTruthy it.inventory then it.inventory.getD [] else []) "stockLevel",
        it.size⟩) ∧
    (dictTruthy it.price = false → dictTruthy it.nationalPrice = false →
      clean_one p = .ok ⟨p.upc, p.description, p.brand, none, none,
        dictGet (if dictTruthy it.inventory then it.inventory.getD [] else []) "stockLevel",
        it.size⟩) := by
  refine ⟨?_, ?_, ?_⟩
  · intro d hd hne
    have htd : dictTruthy (some d) = true := by
      cases d with
      | nil => exact absurd rfl hne
      | cons a l => simp [dictTruthy]
    simp [clean_one, hp, price_obj_of, hd, htd]
  · intro hf d hd hne
    have htd : dictTruthy (some d) = true := by
      cases d with
      | nil => exact absurd rfl hne
      | cons a l => simp [dictTruthy]
    simp [clean_one, hp, price_obj_of, hf, hd, htd]
  · intro hf hnf
    simp [clean_one, hp, price_obj_of, hf, hnf, dictGet]

/-- C7 amended, witnessed: an item with a non-empty `price` dict takes its
prices from it; one with a None `price` and non-empty `nationalPrice` takes
them from the fallback; one with neither gets null prices. -/
theorem C7_price_fallback_amended_witness :
    clean_one ⟨some "a", none, none,
        some [⟨some [("regular", some 3), ("promo", some 2)], none, none, some "1 lb"⟩]⟩ =
      .ok ⟨some "a", none, none, some 3, some 2, none, some "1 lb"⟩ ∧
    clean_one ⟨some "b", none, none,
        some [⟨none, some [("regular", some 7)], none, none⟩]⟩ =
      .ok ⟨some "b", none, none, some 7, none, none, none⟩ ∧
    clean_one ⟨some "c", none, none, some [⟨none, none, none, none⟩]⟩ =
      .ok ⟨some "c", none, none, none, none, none, none⟩ := by
  refine ⟨?_, ?_, ?_⟩
  · have h := (C7_price_fallback_amended
      ⟨some "a", none, none,
        some [⟨some [("regular", some 3), ("promo", some 2)], none, none, some "1 lb"⟩]⟩
      ⟨some [("regular", some 3), ("promo", some 2)], none, none, some "1 lb"⟩ [] rfl).1
      [("regular", some 3), ("promo", some 2)] rfl (by simp)
    simpa [dictGet, dictTruthy] using h
  · have h := (C7_price_fallback_amended
      ⟨some "b", none, none, some [⟨none, some [("regular", some 7)], none, none⟩]⟩
      ⟨none, some [("regular", some 7)], none, none⟩ [] rfl).2.1
      rfl [("regular", some 7)] rfl (by simp)
    simpa [dictGet, dictTruthy] using h
  · have h := (C7_price_fallback_amended
      ⟨some "c", none, none, some [⟨none, none, none, none⟩]⟩
      ⟨none, none, none, none⟩ [] rfl).2.2 rfl rfl
    simpa [dictGet, dictTruthy] using h

/-- Splitting a character list on a separator (groups may be empty). -/
def splitOnChar (sep : Char) : List Char → List (List Char)
  | [] => [[]]
  | c :: rest =>
    match splitOnChar sep rest with
    | [] => [[]]
    | g :: gs => if c = sep then [] :: g :: gs else (c :: g) :: gs

/-- Value of an ASCII digit character. -/
def digitVal (c : Char) : Option Nat :=
  if '0' ≤ c ∧ c ≤ '9' then some (c.toNat - 48) else none

/-- A non-empty all-digit character sequence as a natural number. -/
def parseNatChars (l : List Char) : Option Nat :=
  if l.isEmpty then none
  else l.foldl (fun acc c => acc.bind (fun n => (digitVal c).map (fun d => n * 10 + d)))
    (some 0)

/-- Python `str.split()` with no argument: split on whitespace and drop the
empty tokens (modelled for the space-separated size strings at hand). -/
def pySplit (s : String) : List String :=
  ((splitOnChar ' ' s.data).filter (fun t => t ≠ [])).map String.mk

/-- ASCII lower-casing of one character, as Python `str.lower` acts on the
unit tokens at hand. -/
def charLower (c : Char) : Char :=
  if 'A' ≤ c ∧ c ≤ 'Z' then Char.ofNat (c.toNat + 32) else c

/-- Python `str.lower()`. -/
def pyToLower (s : String) : String := String.mk (s.data.map charLower)

/-- Whitespace characters stripped by Python `str.strip()`. -/
def pyIsSpace (c : Char) : Bool :=
  c = ' ' || c = '\t' || c = '\n' || c = '\r'

/-- Python `str.strip()`: drop leading and trailing whitespace. -/
def pyStrip (s : String) : String :=
  String.mk (((s.data.dropWhile pyIsSpace).reverse.dropWhile pyIsSpace).reverse)

/-- A non-negative decimal literal as accepted by Python `float` for the
size strings at hand: digits with an optional fractional part. -/
def parseDecimal (s : String) : Option ℚ :=
  match splitOnChar '.' s.data with
  | [a] => (parseNatChars a).map (fun n => (n : ℚ))
  | [a, b] =>
    match parseNatChars a, parseNatChars b with
    | some n, some m => some ((n : ℚ) + (m : ℚ) / (10 ^ b.length))
    | _, _ => none
  | _ => none

/-- Python `Fraction(s)` for the strings at hand: either a decimal literal
or a fraction `a/b` of integers; a zero denominator raises (the caller's
bare `except` turns that into a skip, so it is modelled as `none`). -/
def pyFraction (s : String) : Option ℚ :=
  match splitOnChar '/' s.data with
  | [_] => parseDecimal s
  | [a, b] =>
    match parseNatChars a, parseNatChars b with
    | some n, some m => if m = 0 then none else some ((n : ℚ) / (m : ℚ))
    | _, _ => none
  | _ => none

/-- The unit conversion chain of `price_per_unit` (visualizations.py lines
37-50): the token is lower-cased and stripped, then matched against the
conversion table; anything unrecognized passes through unconverted. -/
def convert_unit (unitRaw : String) (amount : ℚ) : ℚ :=
  let unit := pyStrip (pyToLower unitRaw)
  if unit ∈ (["lb", "lbs", "pound", "pounds"] : List String) then amount * 16
  else if unit ∈ (["gal", "gallon"] : List String) then amount * 128
  else if unit ∈ (["qt", "quart"] : List String) then amount * 32
  else if unit ∈ (["pt", "pint"] : List String) then amount * 16
  else if unit ∈ (["l", "liter", "liters"] : List String) then amount * (338/10)
  else amount

/-- Size normalization as performed inside the loop of `price_per_unit`
(visualizations.py lines 35-50): first token parsed as a fraction, second
token converted; fewer than two tokens raise an IndexError that the loop's
`except` turns into a skip. -/
def normalize_size (s : String) : Option ℚ :=
  match pySplit s with
  | t0 :: t1 :: _ => (pyFraction t0).map (fun a => convert_unit t1 a)
  | _ => none

/-- One iteration of the `price_per_unit` loop (visualizations.py lines
33-57) on a row with a non-null price: a None size, a parse failure, or a
zero normalized amount (ZeroDivisionError) all hit the bare `except` and
skip the row; otherwise the unrounded ratio is kept. -/
def vis_ppu_one (price : ℚ) (size : Option String) : Option ℚ :=
  match size with
  | none => none
  | some s =>
    match normalize_size s with
    | none => none
    | some amount => if amount = 0 then none else some (price / amount)

/-- The rows fed to `price_per_unit` by its query (visualizations.py lines
25-29): regular price and size of every item whose regular price is not
NULL, in table order. -/
def items_price_rows (db : KrogerDB) : List (ℚ × Option String) :=
  db.items.filterMap (fun it => it.regular_price.map (fun p => (p, it.size)))

/-- The `ppu_list` built by `price_per_unit` (visualizations.py lines
31-57). -/
def price_per_unit_list (rows : List (ℚ × Option String)) : List ℚ :=
  rows.filterMap (fun r => vis_ppu_one r.1 r.2)

/-- Round half to even on rationals, the tie rule of Python `round`
(the float arguments are modelled as exact rationals). -/
def round_half_even (x : ℚ) : ℤ :=
  let f := ⌊x⌋
  let r := x - f
  if r < 1/2 then f
  else if 1/2 < r then f + 1
  else if f % 2 = 0 then f else f + 1

/-- Python `round(x, 4)` (calcs_and_sql.py line 410). -/
def py_round4 (x : ℚ) : ℚ := (round_half_even (x * 10000) : ℚ) / 10000

/-- One iteration of the price-per-unit loop of `kroger_calculations`
(calcs_and_sql.py lines 401-413): guarded by Python truthiness of size and
price (so a present-but-zero price or empty size is skipped), the amount is
`float(size.split()[0])` — the raw leading number, no fraction support and
NO unit conversion — and the ratio is rounded to 4 digits.  Parse failures,
a missing leading token and a zero amount (ZeroDivisionError) hit the bare
`except` and skip the row. -/
def kroger_ppu_one (description : Option String) (size : Option String)
    (price : Option ℚ) : Option (Option String × ℚ) :=
  let sizeTruthy : Bool := match size with | some s => !(s == "") | none => false
  let priceTruthy : Bool := match price with | some p => !(p == 0) | none => false
  if sizeTruthy && priceTruthy then
    match size, price with
    | some s, some p =>
      match pySplit s with
      | t0 :: _ =>
        match parseDecimal t0 with
        | some amount =>
          if amount = 0 then none else some (description, py_round4 (p / amount))
        | none => none
      | [] => none
    | _, _ => none
  else none

/-- The `price_per_unit` list built by `kroger_calculations`
(calcs_and_sql.py lines 395-415). -/
def kroger_ppu (rows : List (Option String × Option String × Option ℚ)) :
    List (Option String × ℚ) :=
  rows.filterMap (fun r => kroger_ppu_one r.1 r.2.1 r.2.2)

/-- Rows of `SELECT products.description, items.size, items.regular_price
FROM products JOIN items ON products.id = items.product_id`
(calcs_and_sql.py lines 395-398), in items-table order; `id` values are
unique, so each item joins with at most one product. -/
def join_products_items (db : KrogerDB) :
    List (Option String × Option String × Option ℚ) :=
  db.items.filterMap (fun it =>
    (db.products.find? (fun p => p.id == it.product_id)).map
      (fun p => (p.description, it.size, it.regular_price)))

/-- The full conversion table of recognized unit spellings. -/
def recognizedUnits : List String :=
  ["lb", "lbs", "pound", "pounds", "gal", "gallon", "qt", "quart",
   "pt", "pint", "l", "liter", "liters"]

/-- C6: for a size string whose amount parses, the unit normalizer returns
the amount times the table factor (lb/lbs/pound/pounds times 16,
gal/gallon times 128, qt/quart times 32, pt/pint times 16, l/liter/liters
times 33.8, oz times 1) and passes any unrecognized unit through
unconverted; `"1 lb"` yields 16, `"1/2 gal"` yields 64, `"2 l"` yields
67.6. -/
theorem C6_unit_normalizer :
    (∀ (q : ℚ) (u : String), u ∈ (["lb", "lbs", "pound", "pounds"] : List String) →
      convert_unit u q = q * 16) ∧
    (∀ (q : ℚ) (u : String), u ∈ (["gal", "gallon"] : List String) →
      convert_unit u q = q * 128) ∧
    (∀ (q : ℚ) (u : String), u ∈ (["qt", "quart"] : List String) →
      convert_unit u q = q * 32) ∧
    (∀ (q : ℚ) (u : String), u ∈ (["pt", "pint"] : List String) →
      convert_unit u q = q * 16) ∧
    (∀ (q : ℚ) (u : String), u ∈ (["l", "liter", "liters"] : List String) →
      convert_unit u q = q * (338/10)) ∧
    (∀ q : ℚ, convert_unit "oz" q = q) ∧
    (∀ (q : ℚ) (u : String), pyStrip (pyToLower u) ∉ recognizedUnits → convert_unit u q = q) ∧
    normalize_size "1 lb" = some 16 ∧
    normalize_size "1/2 gal" = some 64 ∧
    normalize_size "2 l" = some (338/5) := by
  refine ⟨?_, ?_, ?_, ?_, ?_, ?_, ?_, ?_, ?_, ?_⟩
  · intro q u hu
    fin_cases hu <;> rfl
  · intro q u hu
    fin_cases hu <;> rfl
  · intro q u hu
    fin_cases hu <;> rfl
  · intro q u hu
    fin_cases hu <;> rfl
  · intro q u hu
    fin_cases hu <;> rfl
  · intro q
    rfl
  · intro q u hu
    simp only [recognizedUnits, List.mem_cons, List.not_mem_nil, or_false, not_or] at hu
    obtain ⟨h1, h2, h3, h4, h5, h6, h7, h8, h9, h10, h11, h12, h13⟩ := hu
    simp [convert_unit, h1, h2, h3, h4, h5, h6, h7, h8, h9, h10, h11, h12, h13]
  · rw [show normalize_size "1 lb" = some (convert_unit "lb" ((1 : ℕ) : ℚ)) from rfl]
    rw [show convert_unit "lb" ((1 : ℕ) : ℚ) = ((1 : ℕ) : ℚ) * 16 from rfl]
    norm_num
  · rw [show normalize_size "1/2 gal" =
        some (convert_unit "gal" (((1 : ℕ) : ℚ) / ((2 : ℕ) : ℚ))) from rfl]
    rw [show convert_unit "gal" (((1 : ℕ) : ℚ) / ((2 : ℕ) : ℚ)) =
        (((1 : ℕ) : ℚ) / ((2 : ℕ) : ℚ)) * 128 from rfl]
    norm_num
  · rw [show normalize_size "2 l" = some (convert_unit "l" ((2 : ℕ) : ℚ)) from rfl]
    rw [show convert_unit "l" ((2 : ℕ) : ℚ) = ((2 : ℕ) : ℚ) * (338/10) from rfl]
    norm_num

/-- C6, witnessed: the lb rule at `2 lbs`, the liter rule at `2 l`, and the
unrecognized-unit pass-through at `ct` (a count unit). -/
theorem C6_unit_normalizer_witness :
    convert_unit "lbs" 2 = 2 * 16 ∧
    convert_unit "l" 2 = 2 * (338/10) ∧
    convert_unit "ct" 3 = 3 := by
  obtain ⟨hlb, _, _, _, hl, _, hunk, _⟩ := C6_unit_normalizer
  exact ⟨hlb 2 "lbs" (by decide), hl 2 "l" (by decide), hunk 3 "ct" (by decide)⟩

/-- Any integer-valued rational rounds to itself (difference to the floor
is 0). -/
lemma round_half_even_intCast (n : ℤ) : round_half_even ((n : ℚ)) = n := by
  simp only [round_half_even, Int.floor_intCast]
  norm_num

/-- Rounding to 4 digits leaves values with at most 4 decimal digits
untouched. -/
lemma py_round4_of_mul (x : ℚ) (n : ℤ) (h : x * 10000 = (n : ℚ)) :
    py_round4 x = (n : ℚ) / 10000 := by
  rw [py_round4, h, round_half_even_intCast]

/-- The three-record scenario of the claim: sizes 16 oz, 1 lb, 0.5 gal with
prices 2.00, 4.00, 8.00, cleaned and ingested into a fresh database. -/
def dbC2 : KrogerDB :=
  (into_krogerdb
    [⟨some "u16oz", some "A", some "BrandA", some 2, none, none, some "16 oz"⟩,
     ⟨some "u1lb", some "B", some "BrandB", some 4, none, none, some "1 lb"⟩,
     ⟨some "uhalfgal", some "C", some "BrandC", some 8, none, none, some "0.5 gal"⟩]
    "loc1" emptyKrogerDB).1

/-- The product-item join over the scenario database. -/
lemma join_dbC2_eval :
    join_products_items dbC2 =
      [(some "A", some "16 oz", some 2), (some "B", some "1 lb", some 4),
       (some "C", some "0.5 gal", some 8)] := rfl

/-- The report calculation's price-per-unit list over the scenario: the
amount is the raw leading number of the size string, so "1 lb" gives 4/1 = 4
and "0.5 gal" gives 8/0.5 = 16 rather than ounce-normalized values. -/
lemma kroger_ppu_dbC2_eval :
    kroger_ppu (join_products_items dbC2) =
      [(some "A", 1/8), (some "B", 4), (some "C", 16)] := by
  have e1 : kroger_ppu_one (some "A") (some "16 oz") (some 2) =
      some (some "A", (1 : ℚ)/8) := by
    rw [show kroger_ppu_one (some "A") (some "16 oz") (some 2) =
        (if ((16 : ℕ) : ℚ) = 0 then none
         else some (some "A", py_round4 (2 / ((16 : ℕ) : ℚ)))) from rfl]
    rw [if_neg (by norm_num), py_round4_of_mul (2 / ((16 : ℕ) : ℚ)) 1250 (by norm_num)]
    norm_num
  have e2 : kroger_ppu_one (some "B") (some "1 lb") (some 4) =
      some (some "B", (4 : ℚ)) := by
    rw [show kroger_ppu_one (some "B") (some "1 lb") (some 4) =
        (if ((1 : ℕ) : ℚ) = 0 then none
         else some (some "B", py_round4 (4 / ((1 : ℕ) : ℚ)))) from rfl]
    rw [if_neg (by norm_num), py_round4_of_mul (4 / ((1 : ℕ) : ℚ)) 40000 (by norm_num)]
    norm_num
  have e3 : kroger_ppu_one (some "C") (some "0.5 gal") (some 8) =
      some (some "C", (16 : ℚ)) := by
    rw [show kroger_ppu_one (some "C") (some "0.5 gal") (some 8) =
        (if ((0 : ℕ) : ℚ) + ((5 : ℕ) : ℚ) / 10 ^ 1 = 0 then none
         else some (some "C", py_round4 (8 / (((0 : ℕ) : ℚ) + ((5 : ℕ) : ℚ) / 10 ^ 1)))) from rfl]
    rw [if_neg (by norm_num),
      py_round4_of_mul (8 / (((0 : ℕ) : ℚ) + ((5 : ℕ) : ℚ) / 10 ^ 1)) 160000 (by norm_num)]
    norm_num
  rw [join_dbC2_eval]
  simp [kroger_ppu, List.filterMap_cons, e1, e2, e3]

/-- The histogram calculation's price-per-unit list over the scenario:
sizes are normalized to ounces (with fraction support), giving 2/16, 4/16
and 8/64, all unrounded. -/
lemma vis_ppu_dbC2_eval :
    price_per_unit_list (items_price_rows dbC2) = [1/8, 1/4, 1/8] := by
  have hrows : items_price_rows dbC2 =
      [(2, some "16 oz"), (4, some "1 lb"), (8, some "0.5 gal")] := rfl
  have e1 : vis_ppu_one 2 (some "16 oz") = some ((1 : ℚ)/8) := by
    rw [show vis_ppu_one 2 (some "16 oz") =
        (if ((16 : ℕ) : ℚ) = 0 then none else some (2 / ((16 : ℕ) : ℚ))) from rfl]
    rw [if_neg (by norm_num)]
    norm_num
  have e2 : vis_ppu_one 4 (some "1 lb") = some ((1 : ℚ)/4) := by
    rw [show vis_ppu_one 4 (some "1 lb") =
        (if ((1 : ℕ) : ℚ) * 16 = 0 then none else some (4 / (((1 : ℕ) : ℚ) * 16))) from rfl]
    rw [if_neg (by norm_num)]
    norm_num
  have e3 : vis_ppu_one 8 (some "0.5 gal") = some ((1 : ℚ)/8) := by
    rw [show vis_ppu_one 8 (some "0.5 gal") =
        (if (((0 : ℕ) : ℚ) + ((5 : ℕ) : ℚ) / 10 ^ 1) * 128 = 0 then none
         else some (8 / ((((0 : ℕ) : ℚ) + ((5 : ℕ) : ℚ) / 10 ^ 1) * 128))) from rfl]
    rw [if_neg (by norm_num)]
    norm_num
  rw [hrows]
  simp [price_per_unit_list, List.filterMap_cons, e1, e2, e3]

/-- C2 counterexample: on the claim's own three-record scenario the
price-per-unit set computed by `kroger_calculations` is [0.125, 4.0, 16.0],
not the claimed [0.1250, 0.2500, 0.1250]: that code divides by the raw
leading number of the size string without any unit conversion.  Moreover
the histogram computation (which does convert units) never rounds: on a
"3 oz" item at price 1.00 it keeps 1/3 exactly, which differs from the
4-digit rounding 0.3333 the claim prescribes. -/
theorem C2_ppu_counterexample :
    ((kroger_ppu (join_products_items dbC2)).map (fun r => r.2) = [1/8, 4, 16] ∧
      ¬ (kroger_ppu (join_products_items dbC2)).map (fun r => r.2) =
        [1250/10000, 2500/10000, 1250/10000]) ∧
    (price_per_unit_list [((1 : ℚ), some "3 oz")] = [1/3] ∧
      py_round4 (1/3) ≠ 1/3) := by
  have h3 : round_half_even ((1 : ℚ)/3 * 10000) = 3333 := by
    have hx : ((1 : ℚ)/3 * 10000) = 10000/3 := by norm_num
    have hf : ⌊(10000/3 : ℚ)⌋ = 3333 := by
      rw [Int.floor_eq_iff]
      constructor <;> norm_num
    simp only [round_half_even, hx, hf]
    norm_num
  refine ⟨⟨?_, ?_⟩, ?_, ?_⟩
  · rw [kroger_ppu_dbC2_eval]
    rfl
  · rw [kroger_ppu_dbC2_eval]
    norm_num
  · have e : vis_ppu_one 1 (some "3 oz") = some ((1 : ℚ)/3) := by
      rw [show vis_ppu_one 1 (some "3 oz") =
          (if ((3 : ℕ) : ℚ) = 0 then none else some (1 / ((3 : ℕ) : ℚ))) from rfl]
      rw [if_neg (by norm_num)]
      norm_num
    simp [price_per_unit_list, List.filterMap_cons, e]
  · rw [py_round4, h3]
    norm_num

/-- C2 amended: the two price-per-unit computations differ and neither does
both normalization and rounding.  The histogram computation
(`price_per_unit`) normalizes sizes to ounces via the conversion table with
fraction support but keeps the exact unrounded ratio, yielding the set
[0.125, 0.25, 0.125] on the three-record scenario; the report computation
(`kroger_calculations`) rounds to 4 digits but divides by the raw leading
number of the size string (no unit conversion, no fraction support),
yielding [0.125, 4.0, 16.0] on the same scenario. -/
theorem C2_ppu_amended :
    price_per_unit_list (items_price_rows dbC2) = [1/8, 1/4, 1/8] ∧
    kroger_ppu (join_products_items dbC2) =
      [(some "A", 1/8), (some "B", 4), (some "C", 16)] := by
  exact ⟨vis_ppu_dbC2_eval, kroger_ppu_dbC2_eval⟩

/-- Macronutrient percentage computation of `spoonacular_calculations`
(calcs_and_sql.py lines 628-640): caloric contributions protein*4, fat*9,
carbs*4; each contribution over the total, times 100, when the total is
positive, and all three 0 otherwise. -/
def macro_pcts (protein fat carbs : ℚ) : ℚ × ℚ × ℚ :=
  let protein_cal := protein * 4
  let fat_cal := fat * 9
  let carbs_cal := carbs * 4
  let total_macro_cal := protein_cal + fat_cal + carbs_cal
  if 0 < total_macro_cal then
    (protein_cal / total_macro_cal * 100, fat_cal / total_macro_cal * 100,
     carbs_cal / total_macro_cal * 100)
  else (0, 0, 0)

/-- The record appended to `nutrition_data` for one meal
(calcs_and_sql.py lines 656-665). -/
structure NutritionEntry where
  name : Option String
  protein_pct : ℚ
  fat_pct : ℚ
  carbs_pct : ℚ
  protein_density : ℚ
  health_category : String
  nutrition_index : ℚ
  cuisine : Option String
deriving Repr, DecidableEq

/-- One iteration of the `for meal in meals` loop of
`spoonacular_calculations` (calcs_and_sql.py lines 622-665).  The loop body
has no try/except, so arithmetic or comparison on a NULL column raises an
uncaught TypeError, modelled as `.error`; the evaluation order and the
short-circuiting of Python `and` are preserved: `protein * 4` needs
protein, `fat * 9` needs fat, `carbs * 4` needs carbs, `calories > 0` needs
calories, the category conditions touch `health_score` only when the
calories test before them passes, and the nutrition index always touches
`health_score`. -/
def nutrition_one (meal : MealRow) : Except String NutritionEntry :=
  match meal.protein_g with
  | none => .error "TypeError: protein_g is None"
  | some protein =>
  match meal.fat_g with
  | none => .error "TypeError: fat_g is None"
  | some fat =>
  match meal.carbs_g with
  | none => .error "TypeError: carbs_g is None"
  | some carbs =>
  let pcts := macro_pcts protein fat carbs
  match meal.calories with
  | none => .error "TypeError: calories is None"
  | some calories =>
  let protein_density := if 0 < calories then protein / calories else 0
  let finish : ℚ → String → Except String NutritionEntry := fun hs category =>
    .ok ⟨meal.meal_name, pcts.1, pcts.2.1, pcts.2.2, protein_density, category,
      hs * (6/10) + protein_density * 100 * (4/10), meal.cuisine_type⟩
  if calories < 400 then
    match meal.health_score with
    | none => .error "TypeError: health_score is None"
    | some hs =>
      if 50 ≤ hs then finish hs "healthy"
      else if calories < 600 then
        if 30 ≤ hs then finish hs "moderately healthy" else finish hs "less healthy"
      else finish hs "less healthy"
  else if calories < 600 then
    match meal.health_score with
    | none => .error "TypeError: health_score is None"
    | some hs =>
      if 30 ≤ hs then finish hs "moderately healthy" else finish hs "less healthy"
  else
    match meal.health_score with
    | none => .error "TypeError: health_score is None"
    | some hs => finish hs "less healthy"

/-- The whole `for meal in meals` loop (calcs_and_sql.py lines 622-665): an
uncaught exception in any iteration aborts the entire calculation, so the
first error wins and no later meal is processed. -/
def spoonacular_nutrition : List MealRow → Except String (List NutritionEntry)
  | [] => .ok []
  | meal :: rest =>
    match nutrition_one meal with
    | .error e => .error e
    | .ok entry =>
      match spoonacular_nutrition rest with
      | .error e => .error e
      | .ok entries => .ok (entry :: entries)

/-- Whether an `Except` result is a success. -/
def exceptOk {ε α : Type} : Except ε α → Bool
  | .ok _ => true
  | .error _ => false

/-- The rows `spoonacular_calculations` fetches (calcs_and_sql.py lines
603-608): meals whose calories and protein_g are both non-NULL
(health_score is NOT filtered). -/
def fetch_meal_rows (db : MealsDB) : List MealRow :=
  db.meals.filter (fun m => m.calories.isSome && m.protein_g.isSome)

/-- Every success path of the nutrition loop body evaluates
`health_score`: with a NULL health_score the iteration always raises. -/
lemma nutrition_one_none_health_score (meal : MealRow)
    (h : meal.health_score = none) : exceptOk (nutrition_one meal) = false := by
  unfold nutrition_one
  cases meal.protein_g with
  | none => rfl
  | some protein =>
  cases meal.fat_g with
  | none => rfl
  | some fat =>
  cases meal.carbs_g with
  | none => rfl
  | some carbs =>
  cases meal.calories with
  | none => rfl
  | some calories =>
  simp only [h]
  by_cases h1 : calories < 400 <;> by_cases h2 : calories < 600 <;>
    simp [h1, h2, exceptOk]

/-- A NULL-health_score meal appearing anywhere in the fetched rows makes
the whole nutrition loop abort. -/
lemma spoonacular_nutrition_aborts (rows : List MealRow) (meal : MealRow)
    (hmem : meal ∈ rows) (h : meal.health_score = none) :
    exceptOk (spoonacular_nutrition rows) = false := by
  induction rows with
  | nil => cases hmem
  | cons first rest ih =>
    rcases List.mem_cons.mp hmem with heq | htail
    · subst heq
      have herr := nutrition_one_none_health_score meal h
      unfold spoonacular_nutrition
      cases he : nutrition_one meal with
      | error e => rfl
      | ok entry => rw [he] at herr; simp [exceptOk] at herr
    · unfold spoonacular_nutrition
      cases he : nutrition_one first with
      | error e => rfl
      | ok entry =>
        have := ih htail
        cases hr : spoonacular_nutrition rest with
        | error e => rfl
        | ok entries => rw [hr] at this; simp [exceptOk] at this

/-- A meal row with non-null calories and protein but a NULL health score,
as stored by `into_spoonacular_db` when the API returned no healthScore. -/
def nullScoreMeal : MealRow :=
  ⟨1, some 101, some "Mystery Soup", some "2 serving(s)", some 300, some 10,
   some 5, some 20, some "Unknown", none, some "None", some "broth", some "u"⟩

/-- A fully-populated meal row. -/
def okMeal : MealRow :=
  ⟨2, some 102, some "Salad", some "1 serving(s)", some 250, some 8, some 4,
   some 12, some "Mediterranean", some 60, some "None", some "greens", some "u2"⟩

/-- C5 counterexample: the claim says per-record errors in the nutrition
computation are caught and logged and the aggregation completes over the
remaining meals.  With a NULL-health_score meal (calories and protein
present, so it passes the query filter) followed by a perfectly good meal,
the loop instead raises an uncaught TypeError and aborts, never reaching
the good meal — while the good meal alone aggregates fine. -/
theorem C5_uncaught_error_aborts :
    spoonacular_nutrition [nullScoreMeal, okMeal] =
      .error "TypeError: health_score is None" ∧
    exceptOk (spoonacular_nutrition [okMeal]) = true := by
  constructor
  · rfl
  · rfl

/-- C5 amended: per-record errors in `spoonacular_calculations` are NOT
caught: whenever any fetched meal row has a NULL health_score, the whole
nutrition aggregation errors out instead of completing on the remaining
meals. -/
theorem C5_error_handling_amended (db : MealsDB) (meal : MealRow)
    (hmem : meal ∈ fetch_meal_rows db) (h : meal.health_score = none) :
    exceptOk (spoonacular_nutrition (fetch_meal_rows db)) = false :=
  spoonacular_nutrition_aborts (fetch_meal_rows db) meal hmem h

/-- C5 amended, witnessed on a two-meal database whose first stored meal
has a NULL health score. -/
theorem C5_error_handling_amended_witness :
    exceptOk (spoonacular_nutrition (fetch_meal_rows ⟨[nullScoreMeal, okMeal], 3⟩)) =
      false := by
  exact C5_error_handling_amended ⟨[nullScoreMeal, okMeal], 3⟩ nullScoreMeal
    (by rw [show fetch_meal_rows ⟨[nullScoreMeal, okMeal], 3⟩ =
        [nullScoreMeal, okMeal] from rfl]; exact List.mem_cons_self _ _) rfl

/-- The health category a nutrition computation produced, if it
succeeded. -/
def categoryOf : Except String NutritionEntry → Option String
  | .ok e => some e.health_category
  | .error _ => none

/-- Boundary meal with calories 399 and health score 50. -/
def meal399 : MealRow :=
  ⟨3, some 103, some "Bowl A", some "1 serving(s)", some 399, some 10, some 5,
   some 20, some "X", some 50, some "None", some "rice", some "u3"⟩

/-- Boundary meal with calories 400 and health score 50. -/
def meal400 : MealRow :=
  ⟨4, some 104, some "Bowl B", some "1 serving(s)", some 400, some 10, some 5,
   some 20, some "X", some 50, some "None", some "rice", some "u4"⟩

/-- C8: for any meal row with non-null calories and health score (and the
other nutrient fields present so the loop body reaches the classification),
the computed health category is decided first-match-first by
calories < 400 and score >= 50 ("healthy"), else calories < 600 and
score >= 30 ("moderately healthy"), else "less healthy"; in particular
calories 399 with score 50 is "healthy" and calories 400 with score 50 is
"moderately healthy". -/
theorem C8_health_category_rule (i : Nat) (mid : Option Int)
    (nm sv cu dl il mu : Option String) (c p f cb hs : ℚ) :
    (nutrition_one ⟨i, mid, nm, sv, some c, some p, some f, some cb, cu,
        some hs, dl, il, mu⟩ =
      .ok ⟨nm, (macro_pcts p f cb).1, (macro_pcts p f cb).2.1, (macro_pcts p f cb).2.2,
        (if 0 < c then p / c else 0),
        (if c < 400 ∧ 50 ≤ hs then "healthy"
         else if c < 600 ∧ 30 ≤ hs then "moderately healthy" else "less healthy"),
        hs * (6/10) + (if 0 < c then p / c else 0) * 100 * (4/10), cu⟩) ∧
    categoryOf (nutrition_one meal399) = some "healthy" ∧
    categoryOf (nutrition_one meal400) = some "moderately healthy" := by
  refine ⟨?_, rfl, rfl⟩
  simp only [nutrition_one]
  split_ifs <;> first | rfl | tauto

/-- C9 counterexample: the claim says the three percentages sum to 100
whenever the total caloric contribution is NONZERO.  The code tests
`total_macro_cal > 0`, so a meal with protein_g = -1, fat_g = 0,
carbs_g = 0 has nonzero total contribution -4 yet gets percentages
(0, 0, 0), whose sum is 0, not 100. -/
theorem C9_macro_counterexample :
    macro_pcts (-1) 0 0 = (0, 0, 0) ∧
    ((-1 : ℚ) * 4 + 0 * 9 + 0 * 4 ≠ 0) ∧
    (macro_pcts (-1) 0 0).1 + (macro_pcts (-1) 0 0).2.1 + (macro_pcts (-1) 0 0).2.2
      ≠ 100 := by
  have h : macro_pcts (-1) 0 0 = (0, 0, 0) := by
    rw [macro_pcts, if_neg (by norm_num)]
  refine ⟨h, by norm_num, ?_⟩
  rw [h]
  norm_num

/-- C9 amended: with POSITIVE total caloric contribution each percentage is
that nutrient's contribution over the total times 100 and the three sum to
exactly 100; with total contribution zero or negative (in particular for
protein = fat = carbs = 0) all three percentages are 0. -/
theorem C9_macro_amended (p f c : ℚ) :
    (0 < p * 4 + f * 9 + c * 4 →
      (macro_pcts p f c).1 = p * 4 / (p * 4 + f * 9 + c * 4) * 100 ∧
      (macro_pcts p f c).2.1 = f * 9 / (p * 4 + f * 9 + c * 4) * 100 ∧
      (macro_pcts p f c).2.2 = c * 4 / (p * 4 + f * 9 + c * 4) * 100 ∧
      (macro_pcts p f c).1 + (macro_pcts p f c).2.1 + (macro_pcts p f c).2.2 = 100) ∧
    (p * 4 + f * 9 + c * 4 ≤ 0 → macro_pcts p f c = (0, 0, 0)) := by
  constructor
  · intro h
    have hpcts : macro_pcts p f c =
        (p * 4 / (p * 4 + f * 9 + c * 4) * 100, f * 9 / (p * 4 + f * 9 + c * 4) * 100,
         c * 4 / (p * 4 + f * 9 + c * 4) * 100) := by
      rw [macro_pcts, if_pos h]
    have hne : p * 4 + f * 9 + c * 4 ≠ 0 := ne_of_gt h
    refine ⟨by rw [hpcts], by rw [hpcts], by rw [hpcts], ?_⟩
    rw [hpcts]
    field_simp
    ring
  · intro h
    rw [macro_pcts, if_neg (not_lt.mpr h)]

/-- C9 amended, witnessed: a meal with protein 10, fat 5, carbs 20 has
positive total contribution and percentages summing to 100; the all-zero
meal gets (0, 0, 0). -/
theorem C9_macro_amended_witness :
    (macro_pcts 10 5 20).1 + (macro_pcts 10 5 20).2.1 + (macro_pcts 10 5 20).2.2 = 100 ∧
    macro_pcts 0 0 0 = (0, 0, 0) :=
  ⟨((C9_macro_amended 10 5 20).1 (by norm_num)).2.2.2,
   (C9_macro_amended 0 0 0).2 (by norm_num)⟩

end Foodies
